import Mathlib

/-!
Verification development for the 2D truss FEM solver (`calculation.py`).

The pipeline of `Calculation.start_calc` is embedded shallowly over `ℚ`
(the Python code computes with IEEE floats; the rational embedding keeps the
exact field arithmetic of the formulas).  Matrices are total functions
`ℕ → ℕ → ℚ` together with an explicit dimension, vectors are `ℕ → ℚ`,
and the small fixed-size (4×4) element matrices are lists of list rows.
`np.sqrt` is modelled by `Rat.sqrt`, which is exact on the perfect squares
arising in every concrete system evaluated below; `x / 0 = 0` is the
rational stand-in for the non-finite floats numpy produces on a zero
division (neither raises).  Uncaught Python exceptions are modelled by
threading an `Option PyError` next to the mutated object state, so a run
returns both the state reached and the exception that escaped, if any.
-/

/-- A node is a 2D coordinate; Python identifies nodes by exact tuple
equality. -/
abbrev Node : Type := ℚ × ℚ

/-- Global matrices: total functions with an external dimension. -/
abbrev Mat : Type := ℕ → ℕ → ℚ

/-- Global vectors. -/
abbrev Vec : Type := ℕ → ℚ

/-- Dot product of two rational lists (`zipWith` truncates to the shorter). -/
def dotL (a b : List ℚ) : ℚ := (List.zipWith (fun x y => x * y) a b).sum

/-- Entry `i j` of a row-list matrix, `0` outside the stored entries. -/
def ix (A : List (List ℚ)) (i j : ℕ) : ℚ := (A.getD i []).getD j 0

/-- Column `j` of a row-list matrix. -/
def colL (A : List (List ℚ)) (j : ℕ) : List ℚ := A.map (fun r => r.getD j 0)

/-- 4×4 matrix product on row lists. -/
def mul44 (A B : List (List ℚ)) : List (List ℚ) :=
  A.map (fun r => [dotL r (colL B 0), dotL r (colL B 1), dotL r (colL B 2), dotL r (colL B 3)])

/-- Transpose of a 4×4 row-list matrix. -/
def transpose4 (A : List (List ℚ)) : List (List ℚ) :=
  [colL A 0, colL A 1, colL A 2, colL A 3]

/-- Matrix–vector product on row lists. -/
def matVecL (A : List (List ℚ)) (v : List ℚ) : List ℚ := A.map (fun r => dotL r v)

/-- Scalar multiple of a row-list matrix. -/
def smul44 (c : ℚ) (A : List (List ℚ)) : List (List ℚ) :=
  A.map (fun r => r.map (fun x => c * x))

/-- `a` is a list-level substring test used to model Python's `in` on
strings: whether `a` occurs contiguously in `b`.  (`startsWithL` is the
leading-match helper.) -/
def startsWithL : List Char → List Char → Bool
  | [], _ => true
  | _ :: _, [] => false
  | c :: cs, d :: ds => c = d && startsWithL cs ds

/-- Contiguous-occurrence test on character lists. -/
def substrOfL : List Char → List Char → Bool
  | a, [] => a.isEmpty
  | a, d :: ds => startsWithL a (d :: ds) || substrOfL a ds

/-- Python's `a in b` on strings: `a` is a substring of `b`.  The source
uses this operator for its method dispatch (`calc_method in 'NR'`,
`'NR' in calc_method`), so the exact substring semantics matter. -/
def pyIn (a b : String) : Bool := substrOfL a.toList b.toList

/-- Stress function `sigma` of `calculation.py` (lines 33–50), scalar form.
`np.sign` with the zero entries replaced by `1`; then `np.select` over the
two conditions with default `0`. -/
def sigma (eps lin_coeff quad_coeff e_mod eps_f : ℚ) : ℚ :=
  let sign_eps : ℚ := if 0 ≤ eps then 1 else -1
  if |eps| ≤ eps_f ∨ quad_coeff = 0 then
    (lin_coeff * eps - sign_eps * quad_coeff * eps ^ 2) * e_mod
  else if eps_f < |eps| ∧ 0 < quad_coeff then
    (lin_coeff * eps_f - sign_eps * quad_coeff * eps_f ^ 2) * e_mod
  else 0

/-- Reference stress law transcribed from the spec's words (§4.6): in the
plateau the whole bracket carries `sign(ε)`, keeping the plateau
"sign-consistent with loading direction". -/
def sigma_spec (eps lin_coeff quad_coeff e_mod eps_f : ℚ) : ℚ :=
  let sign_eps : ℚ := if 0 ≤ eps then 1 else -1
  if |eps| ≤ eps_f ∨ quad_coeff = 0 then
    (lin_coeff * eps - sign_eps * quad_coeff * eps ^ 2) * e_mod
  else
    sign_eps * (lin_coeff * eps_f - quad_coeff * eps_f ^ 2) * e_mod

/-- Output bundle of `Element.calculate_element_matrices`. -/
structure ElemMats where
  k_local : List (List ℚ)
  k_global : List (List ℚ)
  tmat : List (List ℚ)
  length : ℚ
  deriving Repr

/-- `Element.calculate_element_matrices` (lines 69–98): length, direction
cosines (`sin_theta = -Δy/L` in this file), local axial stiffness, rotation
matrix, and `k_global = T · k_local · Tᵀ`.  There is no zero-length guard in
the source: for `node_i = node_j` the division by `length = 0` silently
produces non-finite floats in numpy (here, the `x/0 = 0` convention). -/
def calculate_element_matrices (node_i node_j : Node) (area e_mod : ℚ) : ElemMats :=
  let delta_x := node_j.1 - node_i.1
  let delta_y := node_j.2 - node_i.2
  let len := Rat.sqrt (delta_x ^ 2 + delta_y ^ 2)
  let cos_theta := delta_x / len
  let sin_theta := -delta_y / len
  let k_local := smul44 (area * e_mod / len)
    [[1, 0, -1, 0], [0, 0, 0, 0], [-1, 0, 1, 0], [0, 0, 0, 0]]
  let tmat := [[cos_theta, sin_theta, 0, 0], [-sin_theta, cos_theta, 0, 0],
               [0, 0, cos_theta, sin_theta], [0, 0, -sin_theta, cos_theta]]
  { k_local := k_local, k_global := mul44 tmat (mul44 k_local (transpose4 tmat)),
    tmat := tmat, length := len }

/-- One entry of `self.element_matrices`: DOF quadruple plus the element
matrices. -/
structure ElementMatrices where
  dofs : List ℕ
  mats : ElemMats
  deriving Repr

/-- Input record of an element (`self.elements` values). -/
structure ElementRecord where
  ele_node_i : Node
  ele_node_j : Node
  ele_A : ℚ
  ele_E : ℚ
  ele_lin_coeff : ℚ
  ele_quad_coeff : ℚ
  ele_eps_f : ℚ
  deriving Repr

/-- Input record of a support (`self.supports` values). -/
structure SupportRecord where
  sup_node : Node
  c_x : ℚ
  c_y : ℚ
  deriving Repr

/-- Input record of a load (`self.forces` values). -/
structure ForceRecord where
  force_node : Node
  f_x : ℚ
  f_y : ℚ
  deriving Repr

/-- `self.calc_param`. -/
structure CalcParam where
  calc_method : String
  number_of_iterations : ℕ
  delta_f_max : ℚ
  deriving Repr

/-- The four dictionaries handed to `Calculation.__init__`, with Python's
insertion-ordered dicts modelled as lists (element ids are `'0','1',…` in
insertion order, as produced by the GUI and assumed by
`self.elements[str(i)]` on line 310). -/
structure Input where
  elements : List ElementRecord
  supports : List SupportRecord
  forces : List ForceRecord
  calc_param : CalcParam

/-- First-seen deduplicated node list (lines 201–206). -/
def collectNodes (elements : List ElementRecord) : List Node :=
  elements.foldl (fun ns e =>
    let ns1 := if e.ele_node_i ∈ ns then ns else ns ++ [e.ele_node_i]
    if e.ele_node_j ∈ ns1 then ns1 else ns1 ++ [e.ele_node_j]) []

/-- Index of the first occurrence of a node; `none` models the `KeyError`
of the dict lookup `self.node_to_index[...]`. -/
def nodeIdx (node : Node) : List Node → Option ℕ
  | [] => none
  | x :: xs => if x = node then some 0 else (nodeIdx node xs).map (· + 1)

/-- Unit conversion of line 219: `MPa → kN/m²`. -/
def eleEconv (e : ElementRecord) : ℚ := e.ele_E * 1000

/-- Unit conversion of line 220: `cm² → m²`. -/
def eleAconv (e : ElementRecord) : ℚ := e.ele_A * (1 / 10000)

/-- Lines 217–234: per-element DOF quadruple and element matrices.  Element
endpoints are always contained in the collected node list, so the lookups
cannot fail (`getD 0` is never exercised). -/
def buildElementMatrices (elements : List ElementRecord) : List ElementMatrices :=
  let nodes := collectNodes elements
  elements.map (fun e =>
    let i := (nodeIdx e.ele_node_i nodes).getD 0
    let j := (nodeIdx e.ele_node_j nodes).getD 0
    { dofs := [2 * i, 2 * i + 1, 2 * j, 2 * j + 1],
      mats := calculate_element_matrices e.ele_node_i e.ele_node_j (eleAconv e) (eleEconv e) })

/-- Scatter-add of all element global matrices (lines 148–170); the sparse
constructor sums duplicate (row, col) pairs. -/
def scatterK (ems : List ElementMatrices) : Mat := fun r c =>
  (ems.map (fun em =>
    ((em.dofs.zip em.mats.k_global).map (fun p =>
      ((em.dofs.zip p.2).map (fun q =>
        if p.1 = r ∧ q.1 = c then q.2 else 0)).sum)).sum)).sum

/-- `num_dofs` of lines 151–166: running maximum of the element DOFs. -/
def numDofs (ems : List ElementMatrices) : ℕ :=
  ems.foldl (fun acc em => max acc (em.dofs.foldl max 0)) 0

/-- One support axis (lines 180–193): a value `> 1` is an elastic spring
added to the diagonal (and recorded in `spring_index`); a value `= 1` is
the rigid sentinel that zeroes the row and column and puts `1` on the
diagonal; anything else leaves both untouched. -/
def applyAxis (d : ℕ) (c : ℚ) (ks : Mat × Vec) : Mat × Vec :=
  if 1 < c then
    (fun i j => if i = d ∧ j = d then ks.1 d d + c else ks.1 i j,
     fun i => if i = d then c else ks.2 i)
  else if c = 1 then
    (fun i j => if i = d ∧ j = d then 1 else if i = d ∨ j = d then 0 else ks.1 i j,
     ks.2)
  else ks

/-- Both axes of one support, x before y (lines 180–193). -/
def applySupport (idx : ℕ) (s : SupportRecord) (ks : Mat × Vec) : Mat × Vec :=
  applyAxis (2 * idx + 1) s.c_y (applyAxis (2 * idx) s.c_x ks)

/-- The support loop of lines 173–193.  An unconnected support hits the
`break` on line 179: the remaining supports of the loop are NOT processed. -/
def applySupports (lookup : Node → Option ℕ) : List SupportRecord → Mat × Vec → Mat × Vec
  | [], ks => ks
  | s :: rest, ks =>
    match lookup s.sup_node with
    | none => ks
    | some idx => applySupports lookup rest (applySupport idx s ks)

/-- Modelled from the spec (§4.3): the same support loop but with the
unconnected entry merely skipped ("that entry is skipped", "processing
continues"), for comparison with the source's `break` semantics. -/
def applySupportsSpec (lookup : Node → Option ℕ) : List SupportRecord → Mat × Vec → Mat × Vec
  | [], ks => ks
  | s :: rest, ks =>
    match lookup s.sup_node with
    | none => applySupportsSpec lookup rest ks
    | some idx => applySupportsSpec lookup rest (applySupport idx s ks)

/-- `Calculation.assembly_system_matrix` (lines 138–196): scatter the
element matrices, reset `spring_index` to zeros, then apply the boundary
conditions.  Returns the dense matrix together with `spring_index`. -/
def assembly_system_matrix (ems : List ElementMatrices) (supports : List SupportRecord)
    (lookup : Node → Option ℕ) : Mat × Vec :=
  applySupports lookup supports (scatterK ems, fun _ => 0)

/-- The load loop of lines 241–249, with the `break` of line 247 on an
unconnected force node. -/
def scatterLoads (lookup : Node → Option ℕ) : List ForceRecord → Vec → Vec
  | [], f => f
  | fr :: rest, f =>
    match lookup fr.force_node with
    | none => f
    | some idx =>
      scatterLoads lookup rest (fun d =>
        if d = 2 * idx then f d + fr.f_x
        else if d = 2 * idx + 1 then f d + fr.f_y else f d)

/-- Line 251: zero the load entries at every index whose diagonal equals 1. -/
def zeroAtRigid (k : Mat) (f : Vec) : Vec := fun d => if k d d = 1 then 0 else f d

/-- Eliminate the leading column of `r` against pivot row `p`
(`r - (r₀/p₀)·p`, head dropped). -/
def elimRow (p r : List ℚ) : List ℚ :=
  let factor := r.headD 0 / p.headD 0
  List.zipWith (fun x y => x - factor * y) r.tail p.tail

/-- First row with a nonzero leading entry, and the remaining rows. -/
def findPivot : List (List ℚ) → Option (List ℚ × List (List ℚ))
  | [] => none
  | r :: rs =>
    if r.headD 0 ≠ 0 then some (r, rs)
    else match findPivot rs with
         | none => none
         | some p => some (p.1, r :: p.2)

/-- Fueled Gaussian elimination with back substitution on an augmented
system; `none` models the `LinAlgError` numpy's solver raises on an exactly
singular matrix (an all-zero pivot column). -/
def gaussFuel : ℕ → List (List ℚ) → Option (List ℚ)
  | _, [] => some []
  | 0, _ :: _ => none
  | Nat.succ fuel, rows =>
    match findPivot rows with
    | none => none
    | some p =>
      match gaussFuel fuel (p.2.map (elimRow p.1)) with
      | none => none
      | some xs =>
        let t := p.1.tail
        some (((t.getLastD 0 - dotL t xs) / p.1.headD 0) :: xs)

/-- `np.linalg.solve(K, f)` on the `n`-dimensional system: `none` models the
raised `LinAlgError`. -/
def np_linalg_solve (n : ℕ) (k : Mat) (f : Vec) : Option Vec :=
  let rows := (List.range n).map (fun i => (List.range n).map (fun j => k i j) ++ [f i])
  match gaussFuel n rows with
  | none => none
  | some xs => some (fun d => xs.getD d 0)

/-- Uncaught Python exceptions that can escape `start_calc`. -/
inductive PyError where
  | typeError
  | indexError
  | attributeError
  | linAlgError
  deriving Repr, DecidableEq

/-- The Python value held by `self.axial_forces_cor` when line 350 runs:
`None` (initial value), the 1-D array of linear axial forces (the β = 0
fallback of line 343), or the (n,1)-shaped array produced by the iteration
(line 335). -/
inductive NpForcesCor where
  | npNone
  | arr1 (l : List ℚ)
  | arr2 (l : List ℚ)
  | pyList (l : List ℚ)
  deriving Repr, DecidableEq

/-- Line 350, `[force[0] for force in self.axial_forces_cor if force]`:
iterating `None` raises `TypeError`; in a 1-D array every entry is a numpy
scalar, so the first truthy (nonzero) entry raises `IndexError` on
`force[0]` while an all-zero array filters down to `[]`; in an (n,1) array
each `force` is a one-entry row, truthy exactly when its value is nonzero,
and `force[0]` extracts the value — a plain filter dropping exact zeros.
A plain Python list of floats (the value line 350 itself assigns) would
fail on `force[0]` with a `TypeError`; that case is unreachable because
line 350 executes once per calculation. -/
def listComp350 : NpForcesCor → List ℚ × Option PyError
  | .npNone => ([], some .typeError)
  | .arr1 l => if ∃ x ∈ l, x ≠ 0 then ([], some .indexError) else ([], none)
  | .arr2 l => (l.filter (fun x => decide (x ≠ 0)), none)
  | .pyList l => if ∃ x ∈ l, x ≠ 0 then ([], some .typeError) else ([], none)

/-- `np.round` at the integer scale: round half to even. -/
def roundHalfToEven (q : ℚ) : ℤ :=
  let f := ⌊q⌋
  let r := q - f
  if r < 1 / 2 then f else if 1 / 2 < r then f + 1 else if f % 2 = 0 then f else f + 1

/-- `np.round(·, 2)` used on all reported outputs (lines 353–361). -/
def npRound2 (q : ℚ) : ℚ := (roundHalfToEven (q * 100) : ℚ) / 100

/-- The first `n` entries of a global vector as a list. -/
def vecList (n : ℕ) (v : Vec) : List ℚ := (List.range n).map v

/-- `reshape(-1, 2)` of an `n`-entry column vector into per-node pairs. -/
def reshape2 (n : ℕ) (v : Vec) : List (ℚ × ℚ) :=
  (List.range (n / 2)).map (fun i => (v (2 * i), v (2 * i + 1)))

/-- The solution dictionary of lines 363–371. -/
structure Solution where
  nodes : List Node
  node_displacements_linear : List (ℚ × ℚ)
  node_displacements_nonlinear : List (ℚ × ℚ)
  axial_forces_linear : List ℚ
  axial_forces_nonlinear : List ℚ
  node_equilibrium_linear : Option (List ℚ)
  node_equilibrium_nonlinear : Option (List ℚ)
  node_forces_mismatch : Option (List ℚ)
  iteration_break_number : ℕ
  error_linalg : Option String
  deriving Repr

/-- The relevant instance state of a `Calculation` object after
`start_calc`.  `solution = none` models the initial empty dict `{}` that
`return_solution` hands back when `start_calc` returned early. -/
structure CalcState where
  nodes : List Node
  element_matrices : List ElementMatrices
  n : ℕ
  k_sys : Mat
  spring_index : Vec
  f_vec : Vec
  displacements : Option Vec
  axial_forces : List ℚ
  strain : List ℚ
  displacements_cor_total : Option Vec
  axial_forces_cor : NpForcesCor
  f_vec_mismatch : Option Vec
  node_equilibrium_linear : Option Vec
  node_equilibrium_nonlinear : Option Vec
  iter_break_number : ℕ
  e_linalg : Option String
  solution : Option Solution

/-- Gather `u[dofs]`. -/
def gatherVec (u : Vec) (dofs : List ℕ) : List ℚ := dofs.map u

/-- `f[dofs] += vals` (element DOF quadruples of non-degenerate elements are
pairwise distinct, so duplicate-summing matches numpy's fancy-index `+=`). -/
def scatterAdd (f : Vec) (dofs : List ℕ) (vals : List ℚ) : Vec := fun d =>
  f d + ((dofs.zip vals).map (fun p => if p.1 = d then p.2 else 0)).sum

/-- Local element displacements `Tᵀ · u[dofs]` (lines 264–265, 331–332). -/
def localDisps (ems : List ElementMatrices) (u : Vec) : List (List ℚ) :=
  ems.map (fun em => matVecL (transpose4 em.mats.tmat) (gatherVec u em.dofs))

/-- Per-element linear axial force: entry 2 of `K_local · u_local`
(lines 266–268). -/
def linearAxialForces (ems : List ElementMatrices) (u : Vec) : List ℚ :=
  List.zipWith (fun dl em => (matVecL em.mats.k_local dl).getD 2 0) (localDisps ems u) ems

/-- Per-element strain `(u_local[2] - u_local[0]) / L` (lines 269–270,
333–334). -/
def strainOf (ems : List ElementMatrices) (u : Vec) : List ℚ :=
  List.zipWith (fun dl em => (dl.getD 2 0 - dl.getD 0 0) / em.mats.length) (localDisps ems u) ems

/-- Internal global force vector scatter (lines 262–271): each element's
`T · (K_local · u_local)` added at its DOFs. -/
def internalFVec (ems : List ElementMatrices) (u : Vec) : Vec :=
  ems.foldl (fun acc em =>
    scatterAdd acc em.dofs
      (matVecL em.mats.tmat (matVecL em.mats.k_local (matVecL (transpose4 em.mats.tmat) (gatherVec u em.dofs)))))
    (fun _ => 0)

/-- `max(abs(v))` over the `n` stored entries (line 320). -/
def maxAbsVec (n : ℕ) (v : Vec) : ℚ :=
  ((List.range n).map (fun d => |v d|)).foldl max 0

/-- `sigma(strain, ...) * ele_area` per element (lines 292 and 335–336). -/
def sigmaAreaList (elements : List ElementRecord) (strain : List ℚ) : List ℚ :=
  List.zipWith (fun eps e =>
    sigma eps e.ele_lin_coeff e.ele_quad_coeff (eleEconv e) e.ele_eps_f * eleAconv e) strain elements

/-- Coordinate→index lookup built from the collected node list
(`self.node_to_index`, line 209). -/
def nodeLookup (inp : Input) : Node → Option ℕ :=
  fun nd => nodeIdx nd (collectNodes inp.elements)

/-- The assembled system matrix and `spring_index` of the run (line 237). -/
def systemKS (inp : Input) : Mat × Vec :=
  assembly_system_matrix (buildElementMatrices inp.elements) inp.supports (nodeLookup inp)

/-- System dimension `num_dofs + 1` (line 169). -/
def sysDim (inp : Input) : ℕ := numDofs (buildElementMatrices inp.elements) + 1

/-- Scatter-added load vector before the rigid zeroing (lines 240–249). -/
def rawLoadVec (inp : Input) : Vec :=
  scatterLoads (nodeLookup inp) inp.forces (fun _ => 0)

/-- The load vector after zeroing entries whose diagonal is 1 (line 251). -/
def loadVec (inp : Input) : Vec := zeroAtRigid (systemKS inp).1 (rawLoadVec inp)

/-- State mutated by the Newton-Raphson loop of lines 290–339. -/
structure IterState where
  ems : List ElementMatrices
  k_sys : Mat
  springIndex : Vec
  strain : List ℚ
  displacements_cor : Vec
  displacements_cor_total : Vec
  displacements_local : List (List ℚ)
  f_vec_mismatch : Vec
  axial_forces_cor : Option (List ℚ)
  node_equilibrium_nonlinear : Option Vec
  iter_break_number : ℕ
  done : Bool

/-- Lines 307–312: rebuild every element's `K_global` from the tangent
modulus `E·(α + 2·β·ε)` at the current strain, keeping DOFs, `K_local`,
`T` and length; the element geometry is re-read from the input records
(`self.elements[str(i)]`). -/
def tangentRebuild (elements : List ElementRecord) (strain : List ℚ)
    (ems : List ElementMatrices) : List ElementMatrices :=
  List.zipWith (fun (em : ElementMatrices) (p : ElementRecord × ℚ) =>
    let e_cor := (p.1.ele_lin_coeff + 2 * p.1.ele_quad_coeff * p.2) * eleEconv p.1
    { em with mats := { em.mats with
        k_global := (calculate_element_matrices p.1.ele_node_i p.1.ele_node_j
          (eleAconv p.1) e_cor).k_global } })
    ems (elements.zip strain)

/-- Lines 305–314: under full Newton-Raphson (`calc_method in 'NR'`) the
element stiffnesses are rebuilt with the tangent modulus and the system
matrix is reassembled by the same `assembly_system_matrix` (boundary
conditions reapplied identically); under the modified method the elements,
system matrix and spring index are left untouched. -/
def nrTangentKS (inp : Input) (s : IterState) : List ElementMatrices × (Mat × Vec) :=
  if pyIn inp.calc_param.calc_method "NR" then
    let ems2 := tangentRebuild inp.elements s.strain s.ems
    (ems2, assembly_system_matrix ems2 inp.supports (nodeLookup inp))
  else (s.ems, (s.k_sys, s.springIndex))

/-- One iteration of the loop body, lines 291–339.  `u` is the linear
displacement vector, `f_vec` the external load vector, `N` the (corrected)
iteration budget.  The returned error is the uncaught `LinAlgError` of the
unguarded solve on line 327; the returned state carries all mutations
performed before the raise. -/
def nrStep (inp : Input) (n N : ℕ) (u f_vec : Vec) (iterNumber : ℕ)
    (s : IterState) : IterState × Option PyError :=
  let afc := sigmaAreaList inp.elements s.strain
  let f_vec_cor := (s.ems.zip afc).foldl (fun acc p =>
    scatterAdd acc p.1.dofs (matVecL p.1.mats.tmat [-p.2, 0, p.2, 0])) (fun _ => 0)
  let spring_reactions : Vec := fun d => s.springIndex d * s.displacements_cor_total d
  let node_eq : Vec := fun d => f_vec d - f_vec_cor d
  let mism1 : Vec := fun d => node_eq d - spring_reactions d
  let t := nrTangentKS inp s
  let mism2 : Vec := fun d => if (t.2).1 d d = 1 then 0 else mism1 d
  if maxAbsVec n mism2 ≤ inp.calc_param.delta_f_max then
    ({ s with
        ems := t.1, k_sys := (t.2).1, springIndex := (t.2).2, f_vec_mismatch := mism2,
        iter_break_number := iterNumber, node_equilibrium_nonlinear := some node_eq,
        done := true }, none)
  else
    match np_linalg_solve n (t.2).1 mism2 with
    | none =>
      ({ s with
          ems := t.1, k_sys := (t.2).1, springIndex := (t.2).2, f_vec_mismatch := mism2 },
       some .linAlgError)
    | some du =>
      let dc : Vec := fun d => s.displacements_cor d + du d
      let dct : Vec := fun d => u d + dc d
      ({ s with
          ems := t.1, k_sys := (t.2).1, springIndex := (t.2).2, f_vec_mismatch := mism2,
          displacements_cor := dc, displacements_cor_total := dct,
          displacements_local := localDisps t.1 dct,
          strain := strainOf t.1 dct,
          axial_forces_cor := some (sigmaAreaList inp.elements (strainOf t.1 dct)),
          iter_break_number := if iterNumber = N then N else s.iter_break_number }, none)

/-- The `for iter_number in range(1, N+1)` loop with its convergence
`break` (line 324) and error propagation. -/
def nrLoop (inp : Input) (n N : ℕ) (u f_vec : Vec) :
    ℕ → ℕ → IterState → IterState × Option PyError
  | 0, _, s => (s, none)
  | Nat.succ fuel, iterNumber, s =>
    let r := nrStep inp n N u f_vec iterNumber s
    match r.2 with
    | some e => (r.1, some e)
    | none => if r.1.done then (r.1, none)
              else nrLoop inp n N u f_vec fuel (iterNumber + 1) r.1

/-- Lines 350–371: the list comprehension on `axial_forces_cor`, the
reshape of `displacements_cor_total` (an `AttributeError` when it is still
`None`), the roundings and the solution dictionary. -/
def finishCalc (st : CalcState) : CalcState × Option PyError :=
  let lc := listComp350 st.axial_forces_cor
  match lc.2 with
  | some e => (st, some e)
  | none =>
    match st.displacements_cor_total with
    | none => ({ st with axial_forces_cor := .pyList lc.1 }, some .attributeError)
    | some dct =>
      let u := st.displacements.getD (fun _ => 0)
      let axfR := st.axial_forces.map npRound2
      let neqlR := st.node_equilibrium_linear.map (fun v => fun d => npRound2 (v d))
      let neqnR := st.node_equilibrium_nonlinear.map (fun v => fun d => npRound2 (v d))
      let mismR := st.f_vec_mismatch.map (fun v => fun d => npRound2 (v d))
      let afcR := lc.1.map npRound2
      let sol : Solution := {
        nodes := st.nodes,
        node_displacements_linear := reshape2 st.n u,
        node_displacements_nonlinear := reshape2 st.n dct,
        axial_forces_linear := axfR,
        axial_forces_nonlinear := afcR,
        node_equilibrium_linear := neqlR.map (vecList st.n),
        node_equilibrium_nonlinear := neqnR.map (vecList st.n),
        node_forces_mismatch := mismR.map (vecList st.n),
        iteration_break_number := st.iter_break_number,
        error_linalg := st.e_linalg }
      ({ st with
          axial_forces := axfR, axial_forces_cor := .pyList afcR,
          node_equilibrium_linear := neqlR, node_equilibrium_nonlinear := neqnR,
          f_vec_mismatch := mismR, solution := some sol }, none)

/-- `Calculation.start_calc` (lines 198–371).  The second component is the
uncaught Python exception escaping the call, if any; the first is the
instance state reached (its mutations persist even when an exception is
raised). -/
def start_calc (inp : Input) : CalcState × Option PyError :=
  let nodes := collectNodes inp.elements
  let ems := buildElementMatrices inp.elements
  let n := sysDim inp
  let ks := systemKS inp
  let f_vec := loadVec inp
  let base : CalcState := {
    nodes := nodes, element_matrices := ems, n := n, k_sys := ks.1, spring_index := ks.2,
    f_vec := f_vec, displacements := none, axial_forces := [], strain := [],
    displacements_cor_total := none, axial_forces_cor := .npNone, f_vec_mismatch := none,
    node_equilibrium_linear := none, node_equilibrium_nonlinear := none,
    iter_break_number := 0, e_linalg := none, solution := none }
  match np_linalg_solve n ks.1 f_vec with
  | none =>
    -- lines 254–259: the LinAlgError is caught, recorded on the instance
    -- attribute `e_linalg` only, and `start_calc` returns early; the
    -- solution dict is still the initial `{}`.
    ({ base with e_linalg := some "Singular matrix" }, none)
  | some u =>
    let axf := linearAxialForces ems u
    let strain0 := strainOf ems u
    let neql : Vec := fun d => f_vec d - internalFVec ems u d
    let sumQuad := (inp.elements.map (fun e => e.ele_quad_coeff)).sum
    let method := inp.calc_param.calc_method
    if (pyIn method "NR" = true ∨ pyIn method "modNR" = true) ∧ sumQuad ≠ 0 then
      -- line 284: `(calc_method in 'NR' or calc_method in 'modNR') and sum(β) != 0`
      let N := if inp.calc_param.number_of_iterations < 1 then 1
               else inp.calc_param.number_of_iterations
      let init : IterState := {
        ems := ems, k_sys := ks.1, springIndex := ks.2, strain := strain0,
        displacements_cor := fun _ => 0, displacements_cor_total := u,
        displacements_local := localDisps ems u, f_vec_mismatch := fun _ => 0,
        axial_forces_cor := none, node_equilibrium_nonlinear := none,
        iter_break_number := 0, done := false }
      let lr := nrLoop inp n N u f_vec N 1 init
      let st1 : CalcState := { base with
        element_matrices := lr.1.ems, k_sys := lr.1.k_sys, spring_index := lr.1.springIndex,
        displacements := some u, axial_forces := axf, strain := lr.1.strain,
        displacements_cor_total := some lr.1.displacements_cor_total,
        axial_forces_cor := match lr.1.axial_forces_cor with
                            | none => .npNone
                            | some l => .arr2 l,
        f_vec_mismatch := some lr.1.f_vec_mismatch,
        node_equilibrium_linear := some neql,
        node_equilibrium_nonlinear := lr.1.node_equilibrium_nonlinear,
        iter_break_number := lr.1.iter_break_number }
      match lr.2 with
      | some e => (st1, some e)
      | none => finishCalc st1
    else
      -- line 341: `elif 'NR' in calc_method or 'modNR' in calc_method and sum(β) == 0`
      -- (Python precedence: `A or (B and C)`); the branch copies the 1-D
      -- linear axial force array into `axial_forces_cor`.
      let afcor : NpForcesCor :=
        if pyIn "NR" method = true ∨ (pyIn "modNR" method = true ∧ sumQuad = 0) then .arr1 axf
        else .npNone
      let st1 : CalcState := { base with
        displacements := some u, axial_forces := axf,
        strain := strain0, node_equilibrium_linear := some neql, axial_forces_cor := afcor }
      finishCalc st1

/-- `Calculation.return_solution` (lines 130–136): run `start_calc` and
hand back `self.solution`; exceptions raised inside `start_calc` propagate
to the caller. -/
def return_solution (inp : Input) : Option Solution × Option PyError :=
  ((start_calc inp).1.solution, (start_calc inp).2)

/-- `'NR' in 'NR'` is true (substring test). -/
theorem pyIn_NR_NR : pyIn "NR" "NR" = true := by decide

/-- `'NR' in 'modNR'` is true: the reason the `elif` on line 341 also
catches the modified method. -/
theorem pyIn_NR_modNR : pyIn "NR" "modNR" = true := by decide

/-- `'modNR' in 'NR'` is false: the reason line 306 skips the rebuild for
the modified method. -/
theorem pyIn_modNR_NR : pyIn "modNR" "NR" = false := by decide

/-- `'modNR' in 'modNR'` is true. -/
theorem pyIn_modNR_modNR : pyIn "modNR" "modNR" = true := by decide

/-- `'linear' in 'NR'` is false. -/
theorem pyIn_linear_NR : pyIn "linear" "NR" = false := by decide

/-- `'linear' in 'modNR'` is false. -/
theorem pyIn_linear_modNR : pyIn "linear" "modNR" = false := by decide

/-- `'NR' in 'linear'` is false. -/
theorem pyIn_NR_linear : pyIn "NR" "linear" = false := by decide

/-- `'modNR' in 'linear'` is false. -/
theorem pyIn_modNR_linear : pyIn "modNR" "linear" = false := by decide

/-- `'linear' in 'linear'` is true. -/
theorem pyIn_linear_linear : pyIn "linear" "linear" = true := by decide

/-- Rational square root of the perfect squares used below. -/
theorem ratSqrt_one : Rat.sqrt 1 = 1 := by decide

/-- Rational square root of zero. -/
theorem ratSqrt_zero : Rat.sqrt 0 = 0 := by decide

/-- A single horizontal unit-length element with `E·A/L = 1` (after the
unit conversions of lines 219–220), pinned rigidly at both nodes, no
loads, and the `linear` method: a perfectly ordinary linear run. -/
def c1inp : Input :=
  { elements := [{ ele_node_i := (1, 0), ele_node_j := (2, 0), ele_A := 10000, ele_E := 1/1000,
                   ele_lin_coeff := 1, ele_quad_coeff := 0, ele_eps_f := 1 }],
    supports := [{ sup_node := (1, 0), c_x := 1, c_y := 1 },
                 { sup_node := (2, 0), c_x := 1, c_y := 1 }],
    forces := [],
    calc_param := { calc_method := "linear", number_of_iterations := 0, delta_f_max := 0 } }

/-- A valid single-element linear input with no supports: the assembled
matrix is the rank-1 element stiffness, which is exactly singular. -/
def c4inp : Input :=
  { elements := [{ ele_node_i := (1, 0), ele_node_j := (2, 0), ele_A := 10000, ele_E := 1/1000,
                   ele_lin_coeff := 1, ele_quad_coeff := 0, ele_eps_f := 1 }],
    supports := [], forces := [],
    calc_param := { calc_method := "linear", number_of_iterations := 0, delta_f_max := 0 } }

/-- A single-element Newton-Raphson input with β = 0 everywhere and a unit
load, so the linear axial force is the nonzero value `1`. -/
def c7inp : Input :=
  { elements := [{ ele_node_i := (1, 0), ele_node_j := (2, 0), ele_A := 10000, ele_E := 2/1000,
                   ele_lin_coeff := 1, ele_quad_coeff := 0, ele_eps_f := 1 }],
    supports := [{ sup_node := (1, 0), c_x := 1, c_y := 1 },
                 { sup_node := (2, 0), c_x := 0, c_y := 1 }],
    forces := [{ force_node := (2, 0), f_x := 1, f_y := 0 }],
    calc_param := { calc_method := "NR", number_of_iterations := 2, delta_f_max := 0 } }

/-- C3: the material stress function does not match the spec's piecewise
reference on the compression plateau.  At ε = −2, α = 1, β = 1/2, E = 1,
ε_f = 1 (so |ε| > ε_f and β > 0) the code evaluates
`(α·ε_f − sign(ε)·β·ε_f²)·E = 3/2` — a tensile stress for a compressive
strain — while the spec's `sign(ε)·(α·ε_f − β·ε_f²)·E` is −1/2. -/
theorem C3_sigma_compression_plateau :
    sigma (-2) 1 (1/2) 1 1 = 3/2 ∧ sigma_spec (-2) 1 (1/2) 1 1 = -(1/2) ∧
    sigma (-2) 1 (1/2) 1 1 ≠ sigma_spec (-2) 1 (1/2) 1 1 := by
  norm_num [sigma, sigma_spec, abs]

/-- C6: evaluating the element matrices of a degenerate element
(`node_i = node_j`) does not fail: there is no zero-length guard and no
`DegenerateElement` error anywhere in the code; the function computes
`length = 0` and then divides by it (numpy produces non-finite entries
with only a `RuntimeWarning`; in the rational embedding the division by
zero yields 0). -/
theorem C6_zero_length_no_failure :
    (calculate_element_matrices ((2 : ℚ), (3 : ℚ)) ((2 : ℚ), (3 : ℚ)) 1 1).length = 0 ∧
    ix (calculate_element_matrices ((2 : ℚ), (3 : ℚ)) ((2 : ℚ), (3 : ℚ)) 1 1).k_local 0 0 = 0 := by
  norm_num [calculate_element_matrices, ratSqrt_zero, smul44, ix]

/-- C4: when the linear solve fails on the singular matrix of `c4inp`, the
error is caught (nothing escapes `start_calc`), the remaining stages are
skipped, but the returned solution is the initial empty dict — the solver
error lives only in the instance attribute `e_linalg` and never reaches a
`Solution` record. -/
theorem C4_singular_solve_empty_solution :
    (start_calc c4inp).1.solution = none ∧
    (start_calc c4inp).1.e_linalg = some "Singular matrix" ∧
    (start_calc c4inp).2 = none := by
  norm_num [start_calc, finishCalc, c4inp, nodeLookup, systemKS, sysDim, rawLoadVec, loadVec,
    collectNodes, nodeIdx, buildElementMatrices, calculate_element_matrices, eleEconv, eleAconv,
    scatterK, numDofs, applyAxis, applySupport, applySupports, assembly_system_matrix,
    scatterLoads, zeroAtRigid, elimRow, findPivot, gaussFuel, np_linalg_solve,
    dotL, ix, colL, mul44, transpose4, matVecL, smul44, ratSqrt_one, List.range_succ]

/-- C7: a Newton-Raphson run whose elements all have β = 0 does not report
the linear axial forces as its nonlinear result: the fallback branch of
line 343 stores the 1-D linear force array, and line 350 then indexes its
numpy scalars with `[0]`, raising `IndexError` — the run crashes with no
solution at all (here with linear axial force 1 in the single element). -/
theorem C7_beta_zero_nonlinear_raises :
    (start_calc c7inp).2 = some PyError.indexError ∧
    (start_calc c7inp).1.axial_forces = [1] ∧
    (start_calc c7inp).1.solution = none := by
  norm_num [start_calc, finishCalc, c7inp, nodeLookup, systemKS, sysDim, rawLoadVec, loadVec,
    collectNodes, nodeIdx, buildElementMatrices, calculate_element_matrices, eleEconv, eleAconv,
    scatterK, numDofs, applyAxis, applySupport, applySupports, assembly_system_matrix,
    scatterLoads, zeroAtRigid, elimRow, findPivot, gaussFuel, np_linalg_solve, listComp350,
    gatherVec, scatterAdd, localDisps, linearAxialForces, strainOf, internalFVec,
    sigmaAreaList, sigma, dotL, ix, colL, mul44, transpose4, matVecL, smul44,
    pyIn_NR_NR, pyIn_NR_modNR, ratSqrt_one, List.range_succ]

/-- C1: a valid linear-method run does not complete: `self.axial_forces_cor`
is still `None` when the unconditional list comprehension of line 350 runs,
so every `calc_method = 'linear'` calculation raises `TypeError` and
`return_solution` never returns a `Solution` record (the state's solution
is still the initial empty dict). -/
theorem C1_linear_run_raises :
    (start_calc c1inp).2 = some PyError.typeError ∧ (start_calc c1inp).1.solution = none := by
  norm_num [start_calc, finishCalc, c1inp, nodeLookup, systemKS, sysDim, rawLoadVec, loadVec,
    collectNodes, nodeIdx, buildElementMatrices, calculate_element_matrices, eleEconv, eleAconv,
    scatterK, numDofs, applyAxis, applySupport, applySupports, assembly_system_matrix,
    scatterLoads, zeroAtRigid, elimRow, findPivot, gaussFuel, np_linalg_solve, listComp350,
    gatherVec, scatterAdd, localDisps, linearAxialForces, strainOf, internalFVec,
    sigmaAreaList, sigma, dotL, ix, colL, mul44, transpose4, matVecL, smul44,
    pyIn_linear_NR, pyIn_linear_modNR, pyIn_NR_linear, pyIn_modNR_linear, pyIn_linear_linear,
    ratSqrt_one, List.range_succ]

/-- Input whose first support references the node (5,5), which belongs to
no element, followed by a perfectly good rigid support at (1,0). -/
def c2inp : Input :=
  { elements := [{ ele_node_i := (1, 0), ele_node_j := (2, 0), ele_A := 10000, ele_E := 2/1000,
                   ele_lin_coeff := 1, ele_quad_coeff := 0, ele_eps_f := 1 }],
    supports := [{ sup_node := (5, 5), c_x := 1, c_y := 1 },
                 { sup_node := (1, 0), c_x := 1, c_y := 1 }],
    forces := [],
    calc_param := { calc_method := "linear", number_of_iterations := 0, delta_f_max := 0 } }

/-- C2 counterexample: with `c2inp` the support loop `break`s at the
unconnected first support, so the good second support is never applied:
the assembled diagonal at DOF 0 keeps its raw scatter value 2, whereas the
spec's skip-and-continue semantics would have eliminated it to 1. -/
theorem C2_unconnected_break_cex :
    (systemKS c2inp).1 0 0 = 2 ∧
    (applySupportsSpec (nodeLookup c2inp) c2inp.supports
      (scatterK (buildElementMatrices c2inp.elements), fun _ => 0)).1 0 0 = 1 ∧
    (2 : ℚ) ≠ 1 := by
  norm_num [c2inp, nodeLookup, systemKS, collectNodes, nodeIdx, buildElementMatrices,
    calculate_element_matrices, eleEconv, eleAconv, scatterK, numDofs, applyAxis, applySupport,
    applySupports, applySupportsSpec, assembly_system_matrix, dotL, ix, colL, mul44,
    transpose4, matVecL, smul44, ratSqrt_one]

/-- C2 amended: the first unconnected support (resp. load) stops the whole
remaining support (resp. load) loop — nothing after it is applied — but the
calculation itself is not aborted: on `c2inp` the run continues into the
solve stage (which then fails gracefully on the un-constrained singular
matrix, recorded in `e_linalg`) and no exception escapes. -/
theorem C2_unconnected_break_amended (lookup : Node → Option ℕ) (s : SupportRecord)
    (rest : List SupportRecord) (ks : Mat × Vec) (fr : ForceRecord)
    (rest2 : List ForceRecord) (f : Vec)
    (hs : lookup s.sup_node = none) (hf : lookup fr.force_node = none) :
    applySupports lookup (s :: rest) ks = ks ∧
    scatterLoads lookup (fr :: rest2) f = f ∧
    (start_calc c2inp).2 = none ∧ (start_calc c2inp).1.e_linalg = some "Singular matrix" := by
  refine ⟨?_, ?_, ?_⟩
  · simp [applySupports, hs]
  · simp [scatterLoads, hf]
  · constructor <;>
    norm_num [start_calc, finishCalc, c2inp, nodeLookup, systemKS, sysDim, rawLoadVec, loadVec,
      collectNodes, nodeIdx, buildElementMatrices, calculate_element_matrices, eleEconv, eleAconv,
      scatterK, numDofs, applyAxis, applySupport, applySupports, assembly_system_matrix,
      scatterLoads, zeroAtRigid, elimRow, findPivot, gaussFuel, np_linalg_solve,
      dotL, ix, colL, mul44, transpose4, matVecL, smul44, ratSqrt_one, List.range_succ]

/-- Witness for C2's amended claim at a concrete unconnected support and
load. -/
theorem C2_unconnected_break_amended_w :
    applySupports (fun _ => none) [⟨(5, 5), 1, 1⟩] (fun _ _ => 7, fun _ => 0) =
      (fun _ _ => 7, fun _ => 0) ∧
    scatterLoads (fun _ => none) [⟨(5, 5), 3, 4⟩] (fun _ => 9) = (fun _ => 9) ∧
    (start_calc c2inp).2 = none ∧ (start_calc c2inp).1.e_linalg = some "Singular matrix" :=
  C2_unconnected_break_amended (fun _ => none) ⟨(5, 5), 1, 1⟩ [] (fun _ _ => 7, fun _ => 0)
    ⟨(5, 5), 3, 4⟩ [] (fun _ => 9) rfl rfl

/-- A single element with `E·A/L = 2` and one support whose x-axis carries
the spring constant 1/2 (a legitimate positive spring stiffness below the
rigid sentinel). -/
def c8inp : Input :=
  { elements := [{ ele_node_i := (1, 0), ele_node_j := (2, 0), ele_A := 10000, ele_E := 2/1000,
                   ele_lin_coeff := 1, ele_quad_coeff := 0, ele_eps_f := 1 }],
    supports := [{ sup_node := (1, 0), c_x := 1/2, c_y := 0 }],
    forces := [],
    calc_param := { calc_method := "linear", number_of_iterations := 0, delta_f_max := 0 } }

/-- C8 counterexample: the elastic spring k = 1/2 > 0 at DOF 0 of `c8inp`
adds nothing to the diagonal — the assembled entry stays at the raw
scatter value 2 instead of the claimed 2 + 1/2, because the code only adds
springs with `c > 1`. -/
theorem C8_elastic_diagonal_cex :
    (systemKS c8inp).1 0 0 = 2 ∧ (2 : ℚ) ≠ 2 + 1/2 := by
  norm_num [c8inp, nodeLookup, systemKS, collectNodes, nodeIdx, buildElementMatrices,
    calculate_element_matrices, eleEconv, eleAconv, scatterK, numDofs, applyAxis, applySupport,
    applySupports, assembly_system_matrix, dotL, ix, colL, mul44, transpose4, matVecL,
    smul44, ratSqrt_one]

/-- C8 amended: a support axis adds its constraint value `k` to the
diagonal of its DOF (and changes nothing else) only when `k > 1`; `k = 1`
is the rigid sentinel, and any axis value `< 1` — Free (0) as well as every
genuine spring `0 < k < 1` — leaves the assembled matrix entirely
unchanged.  Stated through the assembly of a single connected support. -/
theorem C8_elastic_diagonal_amended (ems : List ElementMatrices) (lookup : Node → Option ℕ)
    (s : SupportRecord) (m i j : ℕ)
    (hm : lookup s.sup_node = some m) (hx : 1 < s.c_x) (hy : s.c_y < 1)
    (hij : ¬(i = 2 * m ∧ j = 2 * m)) :
    (assembly_system_matrix ems [s] lookup).1 (2 * m) (2 * m)
      = scatterK ems (2 * m) (2 * m) + s.c_x ∧
    (assembly_system_matrix ems [s] lookup).1 i j = scatterK ems i j := by
  have hy1 : ¬(1 < s.c_y) := by linarith
  have hy2 : ¬(s.c_y = 1) := by linarith
  constructor <;>
    simp [assembly_system_matrix, applySupports, hm, applySupport, applyAxis, hx, hy1, hy2, hij]

/-- Witness for C8's amended claim: spring k = 2 on the x-axis, free
y-axis, on an empty element list. -/
theorem C8_elastic_diagonal_amended_w :
    (assembly_system_matrix [] [⟨(5, 5), 2, 0⟩] (fun _ => some 1)).1 2 2
      = scatterK [] 2 2 + (2 : ℚ) ∧
    (assembly_system_matrix [] [⟨(5, 5), 2, 0⟩] (fun _ => some 1)).1 0 0 = scatterK [] 0 0 :=
  C8_elastic_diagonal_amended [] (fun _ => some 1) ⟨(5, 5), 2, 0⟩ 1 0 0 rfl
    (by norm_num) (by norm_num) (by norm_num)

/-- C10: the nonlinear axial-force list reported by line 350 is the filter
of the computed per-element forces by truthiness: every surviving entry is
nonzero, an element whose computed force is exactly zero is silently
dropped, and the reported list is then strictly shorter than the element
force list (entries no longer align index-for-index), with no exception. -/
theorem C10_falsy_filter (l : List ℚ) (x : ℚ) (i : ℕ)
    (hx : x ∈ (listComp350 (NpForcesCor.arr2 l)).1) (hi : l.getD i 1 = 0) :
    (listComp350 (NpForcesCor.arr2 l)).1 = l.filter (fun y => decide (y ≠ 0)) ∧
    x ≠ 0 ∧
    (listComp350 (NpForcesCor.arr2 l)).1.length < l.length ∧
    (listComp350 (NpForcesCor.arr2 l)).2 = none := by
  have hfil : (listComp350 (NpForcesCor.arr2 l)).1 = l.filter (fun y => decide (y ≠ 0)) := rfl
  have hzero : (0 : ℚ) ∈ l := by
    have hlt : i < l.length := by
      by_contra hge
      rw [List.getD_eq_default _ _ (le_of_not_lt hge)] at hi
      exact one_ne_zero hi
    have := List.getD_eq_getElem l 1 hlt
    rw [hi] at this
    exact this ▸ List.getElem_mem hlt
  refine ⟨hfil, ?_, ?_, rfl⟩
  · rw [hfil] at hx
    have := List.of_mem_filter hx
    simpa using this
  · rw [hfil]
    refine List.length_filter_lt_length_iff_exists.mpr ⟨0, hzero, by simp⟩

/-- Witness for C10 at the concrete force list `[5, 0]` with the zero entry
at index 1. -/
theorem C10_falsy_filter_w :
    (listComp350 (NpForcesCor.arr2 [5, 0])).1 = List.filter (fun y => decide (y ≠ 0)) [5, 0] ∧
    (5 : ℚ) ≠ 0 ∧
    (listComp350 (NpForcesCor.arr2 [5, 0])).1.length < ([5, 0] : List ℚ).length ∧
    (listComp350 (NpForcesCor.arr2 [5, 0])).2 = none :=
  C10_falsy_filter [5, 0] 5 1 (by norm_num [listComp350, List.filter]) (by norm_num)

/-- The rigid-elimination invariant at DOF `d`: unit diagonal, zero row and
column elsewhere. -/
def RigidRowCol (K : Mat) (d : ℕ) : Prop :=
  K d d = 1 ∧ ∀ j, j ≠ d → K d j = 0 ∧ K j d = 0

/-- Applying a support axis at another DOF preserves the invariant. -/
theorem applyAxis_preserve {ks : Mat × Vec} {d' d : ℕ} {c : ℚ} (hne : d' ≠ d)
    (h : RigidRowCol ks.1 d) : RigidRowCol (applyAxis d' c ks).1 d := by
  obtain ⟨h1, h2⟩ := h
  unfold RigidRowCol applyAxis
  have hdd' : ¬(d = d') := fun hh => hne hh.symm
  split_ifs with hc1 hc2
  · refine ⟨?_, fun j hj => ⟨?_, ?_⟩⟩
    · show (if d = d' ∧ d = d' then ks.1 d' d' + c else ks.1 d d) = 1
      rw [if_neg (by tauto), h1]
    · show (if d = d' ∧ j = d' then ks.1 d' d' + c else ks.1 d j) = 0
      rw [if_neg (by tauto), (h2 j hj).1]
    · show (if j = d' ∧ d = d' then ks.1 d' d' + c else ks.1 j d) = 0
      rw [if_neg (by tauto), (h2 j hj).2]
  · refine ⟨?_, fun j hj => ⟨?_, ?_⟩⟩
    · show (if d = d' ∧ d = d' then 1 else if d = d' ∨ d = d' then 0 else ks.1 d d) = 1
      rw [if_neg (by tauto), if_neg (by tauto), h1]
    · show (if d = d' ∧ j = d' then 1 else if d = d' ∨ j = d' then 0 else ks.1 d j) = 0
      by_cases hjd' : j = d'
      · rw [if_neg (by tauto), if_pos (Or.inr hjd')]
      · rw [if_neg (by tauto), if_neg (by tauto), (h2 j hj).1]
    · show (if j = d' ∧ d = d' then 1 else if j = d' ∨ d = d' then 0 else ks.1 j d) = 0
      by_cases hjd' : j = d'
      · rw [if_neg (by tauto), if_pos (Or.inl hjd')]
      · rw [if_neg (by tauto), if_neg (by tauto), (h2 j hj).2]
  · exact ⟨h1, h2⟩

/-- The rigid sentinel (`c = 1`) establishes the invariant at its DOF. -/
theorem applyAxis_establish (d : ℕ) (ks : Mat × Vec) :
    RigidRowCol (applyAxis d 1 ks).1 d := by
  unfold RigidRowCol applyAxis
  rw [if_neg (lt_irrefl 1), if_pos rfl]
  exact ⟨by simp, fun j hj => ⟨by simp [hj], by simp [hj]⟩⟩

/-- A whole support at another node preserves the invariant. -/
theorem applySupport_preserve {ks : Mat × Vec} {d : ℕ} (idx : ℕ) (s : SupportRecord)
    (h1 : 2 * idx ≠ d) (h2 : 2 * idx + 1 ≠ d) (h : RigidRowCol ks.1 d) :
    RigidRowCol (applySupport idx s ks).1 d :=
  applyAxis_preserve h2 (applyAxis_preserve h1 h)

/-- A support with a rigid axis establishes the invariant at that axis's
DOF. -/
theorem applySupport_establish (idx : ℕ) (s : SupportRecord) (ks : Mat × Vec) (d : ℕ)
    (hd : (d = 2 * idx ∧ s.c_x = 1) ∨ (d = 2 * idx + 1 ∧ s.c_y = 1)) :
    RigidRowCol (applySupport idx s ks).1 d := by
  unfold applySupport
  rcases hd with ⟨rfl, hx⟩ | ⟨rfl, hy⟩
  · rw [hx]
    exact applyAxis_preserve (by omega) (applyAxis_establish (2 * idx) ks)
  · rw [hy]
    exact applyAxis_establish (2 * idx + 1) _

/-- The support fold preserves the invariant when every processed support
sits at other DOFs. -/
theorem applySupports_preserve (lookup : Node → Option ℕ) (sups : List SupportRecord) :
    ∀ (ks : Mat × Vec) (d : ℕ),
    (∀ s ∈ sups, ∀ m, lookup s.sup_node = some m → 2 * m ≠ d ∧ 2 * m + 1 ≠ d) →
    RigidRowCol ks.1 d → RigidRowCol (applySupports lookup sups ks).1 d := by
  induction sups with
  | nil => intro ks d _ hk; exact hk
  | cons s rest ih =>
    intro ks d h hk
    simp only [applySupports]
    cases hm : lookup s.sup_node with
    | none => exact hk
    | some m =>
      exact ih _ d (fun t ht m' hm' => h t (List.mem_cons_of_mem _ ht) m' hm')
        (applySupport_preserve m s (h s (List.mem_cons_self _ _) m hm).1
          (h s (List.mem_cons_self _ _) m hm).2 hk)

/-- Main induction: with every support connected and pairwise-distinct
support nodes, a rigid axis of any support in the list yields the
invariant after the whole fold. -/
theorem applySupports_rigid (lookup : Node → Option ℕ)
    (hinj : ∀ a b k, lookup a = some k → lookup b = some k → a = b)
    (sups : List SupportRecord) :
    ∀ (ks : Mat × Vec) (s0 : SupportRecord) (d m : ℕ),
    (∀ t ∈ sups, (lookup t.sup_node).isSome) →
    sups.Pairwise (fun a b => a.sup_node ≠ b.sup_node) →
    s0 ∈ sups → lookup s0.sup_node = some m →
    ((d = 2 * m ∧ s0.c_x = 1) ∨ (d = 2 * m + 1 ∧ s0.c_y = 1)) →
    RigidRowCol (applySupports lookup sups ks).1 d := by
  induction sups with
  | nil => intro ks s0 d m _ _ hmem; cases hmem
  | cons t rest ih =>
    intro ks s0 d m hconn hdis hmem hm hd
    simp only [applySupports]
    rcases List.mem_cons.mp hmem with rfl | hmem'
    · rw [hm]
      apply applySupports_preserve
      · intro s' hs' m' hm'
        have hne : s0.sup_node ≠ s'.sup_node := (List.pairwise_cons.mp hdis).1 s' hs'
        have hmm : m' ≠ m := by
          intro hEq
          exact hne (hinj s0.sup_node s'.sup_node m hm (hEq ▸ hm'))
        rcases hd with ⟨rfl, -⟩ | ⟨rfl, -⟩ <;> omega
      · exact applySupport_establish m s0 ks d hd
    · have ht := hconn t (List.mem_cons_self _ _)
      rcases Option.isSome_iff_exists.mp ht with ⟨mt, hmt⟩
      rw [hmt]
      exact ih _ s0 d m (fun u hu => hconn u (List.mem_cons_of_mem _ hu))
        (List.pairwise_cons.mp hdis).2 hmem' hm hd

/-- Distinct nodes cannot share a first-occurrence index. -/
theorem nodeIdx_inj (l : List Node) : ∀ (a b : Node) (k : ℕ),
    nodeIdx a l = some k → nodeIdx b l = some k → a = b := by
  induction l with
  | nil => intro a b k ha; cases ha
  | cons x xs ih =>
    intro a b k ha hb
    by_cases hxa : x = a <;> by_cases hxb : x = b
    · rw [← hxa, ← hxb]
    · simp only [nodeIdx, if_pos hxa] at ha
      simp only [nodeIdx, if_neg hxb] at hb
      obtain rfl : (0 : ℕ) = k := by injection ha
      rcases Option.map_eq_some'.mp hb with ⟨kb, -, hkb⟩
      omega
    · simp only [nodeIdx, if_neg hxa] at ha
      simp only [nodeIdx, if_pos hxb] at hb
      obtain rfl : (0 : ℕ) = k := by injection hb
      rcases Option.map_eq_some'.mp ha with ⟨ka, -, hka⟩
      omega
    · simp only [nodeIdx, if_neg hxa] at ha
      simp only [nodeIdx, if_neg hxb] at hb
      rcases Option.map_eq_some'.mp ha with ⟨ka, hka, hkak⟩
      rcases Option.map_eq_some'.mp hb with ⟨kb, hkb, hkbk⟩
      have hkk : ka = kb := by omega
      exact ih a b ka hka (hkk ▸ hkb)

/-- C5: in a run whose supports all reference element nodes, with at most
one support per node, every rigidly constrained DOF `d` (axis value 1 at
the support's node index `m`) ends the assembly with `K[d,d] = 1`, zeroes
everywhere else in row `d` and column `d` (any `j ≠ d`), and a zero
assembled load entry at `d`. -/
theorem C5_rigid_dof_invariant (inp : Input) (s0 : SupportRecord) (d j m : ℕ)
    (hconn : ∀ t ∈ inp.supports, ((nodeLookup inp) t.sup_node).isSome)
    (hdis : inp.supports.Pairwise (fun a b => a.sup_node ≠ b.sup_node))
    (hmem : s0 ∈ inp.supports) (hm : nodeLookup inp s0.sup_node = some m)
    (hd : (d = 2 * m ∧ s0.c_x = 1) ∨ (d = 2 * m + 1 ∧ s0.c_y = 1)) (hj : j ≠ d) :
    (systemKS inp).1 d d = 1 ∧ (systemKS inp).1 d j = 0 ∧ (systemKS inp).1 j d = 0 ∧
    loadVec inp d = 0 := by
  have hinj : ∀ a b k, nodeLookup inp a = some k → nodeLookup inp b = some k → a = b :=
    fun a b k ha hb => nodeIdx_inj (collectNodes inp.elements) a b k ha hb
  have h := applySupports_rigid (nodeLookup inp) hinj inp.supports
    (scatterK (buildElementMatrices inp.elements), fun _ => 0) s0 d m hconn hdis hmem hm hd
  have hsys : systemKS inp = applySupports (nodeLookup inp) inp.supports
      (scatterK (buildElementMatrices inp.elements), fun _ => 0) := rfl
  obtain ⟨h1, h2⟩ := hsys ▸ h
  exact ⟨h1, (h2 j hj).1, (h2 j hj).2, by simp [loadVec, zeroAtRigid, h1]⟩

/-- Witness for C5 on the concrete input `c1inp` (rigid support at node
index 0, x-axis DOF 0, other index 2). -/
theorem C5_rigid_dof_invariant_w :
    (systemKS c1inp).1 0 0 = 1 ∧ (systemKS c1inp).1 0 2 = 0 ∧ (systemKS c1inp).1 2 0 = 0 ∧
    loadVec c1inp 0 = 0 :=
  C5_rigid_dof_invariant c1inp ⟨(1, 0), 1, 1⟩ 0 2 0
    (by norm_num [c1inp, nodeLookup, nodeIdx, collectNodes, List.forall_mem_cons])
    (by norm_num [c1inp, List.pairwise_cons, Prod.ext_iff])
    (by simp [c1inp])
    (by norm_num [c1inp, nodeLookup, nodeIdx, collectNodes])
    (Or.inl ⟨rfl, rfl⟩) (by norm_num)

/-- Every branch of an iteration step stores the `nrTangentKS` stiffness
(the step computes it before the convergence check, exactly as lines
305–314 run before line 317). -/
theorem nrStep_k_sys (inp : Input) (n N : ℕ) (u f : Vec) (k : ℕ) (s : IterState) :
    (nrStep inp n N u f k s).1.k_sys = (nrTangentKS inp s).2.1 := by
  simp only [nrStep]
  split
  · rfl
  · split <;> rfl

/-- Without the `'NR'` substring match the step leaves the stiffness
untouched. -/
theorem nrTangentKS_ksys_not (inp : Input) (s : IterState)
    (h : pyIn inp.calc_param.calc_method "NR" = false) :
    (nrTangentKS inp s).2.1 = s.k_sys := by
  simp [nrTangentKS, h]

/-- Loop invariance: when the method is not a substring of `'NR'`
(in particular for `'modNR'`), no iteration of the loop ever changes the
system stiffness matrix. -/
theorem nrLoop_k_sys_const (inp : Input) (n N : ℕ) (u f : Vec)
    (h : pyIn inp.calc_param.calc_method "NR" = false) :
    ∀ (fuel k : ℕ) (s : IterState), (nrLoop inp n N u f fuel k s).1.k_sys = s.k_sys := by
  intro fuel
  induction fuel with
  | zero => intro k s; rfl
  | succ m ih =>
    intro k s
    have hstep : (nrStep inp n N u f k s).1.k_sys = s.k_sys := by
      rw [nrStep_k_sys, nrTangentKS_ksys_not inp s h]
    simp only [nrLoop]
    split
    · exact hstep
    · split
      · exact hstep
      · rw [ih, hstep]

/-- C9: per iteration, the system stiffness after the step equals the
reassembly (same `assembly_system_matrix`, same supports and lookup — the
boundary conditions are reapplied identically) of the element stiffnesses
rebuilt with the tangent modulus `E·(α + 2·β·ε)` exactly when the method
is a substring of `'NR'` (true for `'NR'`), and is left unchanged
otherwise; moreover the whole loop keeps `k_sys` pointwise constant for
every method that is not a substring of `'NR'` (in particular `'modNR'`),
while `'NR' in 'NR'` holds and `'modNR' in 'NR'` fails. -/
theorem C9_tangent_vs_constant_stiffness (inp : Input) (n N fuel k i j : ℕ) (u f : Vec)
    (s : IterState) :
    ((nrStep inp n N u f k s).1.k_sys i j =
      if pyIn inp.calc_param.calc_method "NR" = true then
        (assembly_system_matrix (tangentRebuild inp.elements s.strain s.ems)
          inp.supports (nodeLookup inp)).1 i j
      else s.k_sys i j) ∧
    ((nrLoop inp n N u f fuel k s).1.k_sys i j =
      if pyIn inp.calc_param.calc_method "NR" = true then
        (nrLoop inp n N u f fuel k s).1.k_sys i j
      else s.k_sys i j) ∧
    (pyIn "NR" "NR" = true ∧ pyIn "modNR" "NR" = false) := by
  refine ⟨?_, ?_, pyIn_NR_NR, pyIn_modNR_NR⟩
  · rw [nrStep_k_sys]
    by_cases h : pyIn inp.calc_param.calc_method "NR" = true
    · simp [nrTangentKS, h]
    · have hf : pyIn inp.calc_param.calc_method "NR" = false := by
        simpa using h
      rw [nrTangentKS_ksys_not inp s hf, hf]
      simp
  · by_cases h : pyIn inp.calc_param.calc_method "NR" = true
    · simp [h]
    · have hf : pyIn inp.calc_param.calc_method "NR" = false := by
        simpa using h
      rw [nrLoop_k_sys_const inp n N u f hf, hf]
      simp
